import Mathlib

/-!
Verification of the TaskFlow API (src/main.py) against its specification.

The service stores two SQLite tables, `users` and `tasks`, and exposes CRUD
handlers plus a keyword-matching chat responder.  We embed the handlers as
pure functions over an explicit store: each handler takes the current store
and returns the store after the call together with an `Except` result,
mirroring the fact that every handler opens a fresh connection, runs
parameterized queries, and either commits or raises an HTTPException.
Timestamps (SQLite CURRENT_TIMESTAMP / datetime.utcnow) are abstracted as a
`Nat` parameter `now` supplied to each mutating handler; freshly generated
uuid4 identifiers are likewise passed in as parameters.
-/

namespace TaskFlow

/-- Decidable equality for handler results. -/
instance {ε α : Type} [DecidableEq ε] [DecidableEq α] :
    DecidableEq (Except ε α) := fun x y =>
  match x, y with
  | .ok a, .ok b =>
    if h : a = b then .isTrue (by rw [h])
    else .isFalse (fun hc => h (by injection hc))
  | .error e, .error f =>
    if h : e = f then .isTrue (by rw [h])
    else .isFalse (fun hc => h (by injection hc))
  | .ok _, .error _ => .isFalse (fun hc => Except.noConfusion hc)
  | .error _, .ok _ => .isFalse (fun hc => Except.noConfusion hc)

/-- A row of the `users` table: users(id PRIMARY KEY, name NOT NULL,
email UNIQUE NOT NULL, created_at DEFAULT CURRENT_TIMESTAMP). -/
structure UserRec where
  id : String
  name : String
  email : String
  created_at : Nat
deriving DecidableEq

/-- A row of the `tasks` table: tasks(id PRIMARY KEY, title NOT NULL,
description nullable, completed DEFAULT 0, user_id NOT NULL,
priority DEFAULT 1, created_at, updated_at). -/
structure TaskRec where
  id : String
  title : String
  description : Option String
  completed : Bool
  user_id : String
  priority : Int
  created_at : Nat
  updated_at : Nat
deriving DecidableEq

/-- The whole database: both tables, rows kept in insertion (rowid) order,
which is the order a SELECT without ORDER BY scans them in. -/
structure Store where
  users : List UserRec
  tasks : List TaskRec
deriving DecidableEq

/-- The errors the handlers raise.  `notFound` and `conflict` are the
HTTPExceptions (404 and 400 for duplicate email); `programmingError` is
sqlite3.ProgrammingError, raised when a cursor of a closed connection is
used. -/
inductive ApiError where
  | notFound (detail : String)
  | conflict (detail : String)
  | programmingError
deriving DecidableEq

/-- Pydantic model TaskCreate = TaskBase + user_id (request body of
POST /api/\x7buser_id\x7d/tasks). -/
structure TaskCreate where
  title : String
  description : Option String := none
  completed : Bool := false
  priority : Int := 1
  user_id : String
deriving DecidableEq

/-- Pydantic model TaskUpdate: every field Optional with default None.
Pydantic distinguishes a field that was never supplied from one supplied as
null (`dict(exclude_unset=True)` keeps the latter), so each field is
`Option (Option _)`: `none` = absent from the request, `some none` =
present with explicit null, `some (some v)` = present with value `v`. -/
structure TaskUpdate where
  title : Option (Option String) := none
  description : Option (Option String) := none
  completed : Option (Option Bool) := none
  priority : Option (Option Int) := none
deriving DecidableEq

/-- Pydantic model ChatResponse. -/
structure ChatResponse where
  response : String
  action_taken : Option String
  suggested_action : Option String
deriving DecidableEq

/-- `SELECT id FROM users WHERE id = ?` followed by fetchone. -/
def lookupUser (st : Store) (user_id : String) : Option UserRec :=
  st.users.find? (fun u => u.id == user_id)

/-- The WHERE clause `id = ? AND user_id = ?` used by every per-task query. -/
def taskMatches (task_id user_id : String) (t : TaskRec) : Bool :=
  t.id == task_id && t.user_id == user_id

/-- `SELECT * FROM tasks WHERE id = ? AND user_id = ?` followed by fetchone. -/
def findTask (st : Store) (user_id task_id : String) : Option TaskRec :=
  st.tasks.find? (taskMatches task_id user_id)

/-- `UPDATE tasks SET ... WHERE id = ? AND user_id = ?`: rewrites every
matching row with `f`, leaving the others in place. -/
def updateRows (l : List TaskRec) (task_id user_id : String)
    (f : TaskRec → TaskRec) : List TaskRec :=
  l.map (fun t => if taskMatches task_id user_id t then f t else t)

/-- The per-field merge rule of update_task (src/main.py:344-348): a field
enters update_fields only when it is present in the body AND its value is
not None, so `some (some v)` overwrites and everything else keeps `old`. -/
def applyOpt {α : Type} (u : Option (Option α)) (old : α) : α :=
  match u with
  | some (some v) => v
  | _ => old

/-- Same rule for the nullable description column: a present non-null value
is stored, a present null or an absent field leaves the column alone. -/
def applyDesc (u : Option (Option String)) (old : Option String) :
    Option String :=
  match u with
  | some (some v) => some v
  | _ => old

/-- True when the field contributes a key to update_fields (present in the
body with a non-None value). -/
def isSet {α : Type} (u : Option (Option α)) : Bool :=
  match u with
  | some (some _) => true
  | _ => false

/-- `if update_fields:` — the UPDATE statement runs only when at least one
field survived the None filter of src/main.py:346-348. -/
def TaskUpdate.hasEffective (u : TaskUpdate) : Bool :=
  isSet u.title || isSet u.description || isSet u.completed || isSet u.priority

/-- The SET clause built at src/main.py:352-359 applied to one row: every
surviving field overwrites, and updated_at is set to CURRENT_TIMESTAMP. -/
def applyTaskUpdate (u : TaskUpdate) (now : Nat) (t : TaskRec) : TaskRec :=
  { t with
    title := applyOpt u.title t.title
    description := applyDesc u.description t.description
    completed := applyOpt u.completed t.completed
    priority := applyOpt u.priority t.priority
    updated_at := now }

/-- PUT /api/\x7buser_id\x7d/tasks/\x7btask_id\x7d (src/main.py:322-371).
Verifies the user, fetches the task, filters the body fields (dropping the
ones set to None), runs the UPDATE when any field survived, commits and
closes the connection.  Line 365 then executes a SELECT through the cursor
of the closed connection, which raises sqlite3.ProgrammingError, so the
success branch returning the Task is never reached: the committed store is
paired with `programmingError`. -/
def update_task (st : Store) (user_id task_id : String) (u : TaskUpdate)
    (now : Nat) : Store × Except ApiError TaskRec :=
  match lookupUser st user_id with
  | none => (st, .error (.notFound "User not found"))
  | some _ =>
    match findTask st user_id task_id with
    | none => (st, .error (.notFound "Task not found"))
    | some _ =>
      let st' :=
        if u.hasEffective then
          { st with tasks :=
              (updateRows st.tasks task_id user_id (applyTaskUpdate u now)) }
        else st
      (st', .error .programmingError)

/-- PATCH /api/\x7buser_id\x7d/tasks/\x7btask_id\x7d/complete
(src/main.py:400-439).  Fetches the task, computes the negation of its
completed flag, UPDATEs it together with updated_at, commits and closes.
Line 433 then runs a SELECT on the closed connection, so this handler too
ends in sqlite3.ProgrammingError instead of returning the Task. -/
def toggle_task_completion (st : Store) (user_id task_id : String)
    (now : Nat) : Store × Except ApiError TaskRec :=
  match lookupUser st user_id with
  | none => (st, .error (.notFound "User not found"))
  | some _ =>
    match findTask st user_id task_id with
    | none => (st, .error (.notFound "Task not found"))
    | some t =>
      ({ st with tasks :=
           (updateRows st.tasks task_id user_id
             (fun x => { x with completed := !t.completed, updated_at := now })) },
       .error .programmingError)

/-- POST /api/\x7buser_id\x7d/tasks (src/main.py:234-264).  Verifies the
path user exists (404 before any write), then INSERTs the row.  Note that
line 253 inserts `task.user_id` taken from the request body, not the
verified path parameter `user_id`. -/
def create_task (st : Store) (user_id : String) (task : TaskCreate)
    (new_id : String) (now : Nat) : Store × Except ApiError TaskRec :=
  match lookupUser st user_id with
  | none => (st, .error (.notFound "User not found"))
  | some _ =>
    let row : TaskRec :=
      { id := new_id, title := task.title, description := task.description
        completed := task.completed, user_id := task.user_id
        priority := task.priority, created_at := now, updated_at := now }
    ({ st with tasks := st.tasks ++ [row] }, .ok row)

/-- POST /users (src/main.py:183-212).  The INSERT hits the UNIQUE
constraint on email when any stored user already has that email; the
IntegrityError is mapped to a 400 and nothing is committed. -/
def create_user (st : Store) (name email : String) (new_id : String)
    (now : Nat) : Store × Except ApiError UserRec :=
  if st.users.any (fun u => u.email == email) then
    (st, .error (.conflict "Email already registered"))
  else
    let row : UserRec := { id := new_id, name := name, email := email,
                           created_at := now }
    ({ st with users := st.users ++ [row] }, .ok row)

/-- GET /api/\x7buser_id\x7d/tasks (src/main.py:266-293).  404 when the
user does not exist, otherwise `SELECT * FROM tasks WHERE user_id = ?`
with no ORDER BY: the rows come back in rowid (insertion) order. -/
def get_tasks (st : Store) (user_id : String) :
    Except ApiError (List TaskRec) :=
  match lookupUser st user_id with
  | none => .error (.notFound "User not found")
  | some _ => .ok (st.tasks.filter (fun t => t.user_id == user_id))

/-- Char-list test that the first list starts the second. -/
def startsWithChars : List Char → List Char → Bool
  | [], _ => true
  | _ :: _, [] => false
  | a :: as, b :: bs => a == b && startsWithChars as bs

/-- Char-list test that `needle` occurs contiguously in the second list. -/
def containsChars (needle : List Char) : List Char → Bool
  | [] => startsWithChars needle []
  | c :: cs => startsWithChars needle (c :: cs) || containsChars needle cs

/-- Python's `needle in hay` substring test on strings. -/
def strContains (hay needle : String) : Bool :=
  containsChars needle.data hay.data

/-- Python's str.lower() as applied to the request message
(src/main.py:447), implemented over the character list; on the ASCII
messages involved it coincides with Unicode lower-casing. -/
def lowerStr (s : String) : String := ⟨s.data.map Char.toLower⟩

/-- `any(word in message for word in [...])` (src/main.py:463-487). -/
def containsAny (message : String) (words : List String) : Bool :=
  words.any (fun w => strContains message w)

/-- The rule-based responder of POST /api/chat (src/main.py:462-498): the
lower-cased message is tested against five keyword lists in order, first
match wins, else the fallback acknowledgement quoting the original
message.  The response texts interpolate `request.message` (the original,
not the lower-cased copy). -/
def chatRespond (message : String) : ChatResponse :=
  let m := lowerStr message
  if containsAny m ["add", "create", "new", "task", "todo"] then
    { response := "I can help you add a task. Please use the task form in the dashboard to create: \x27" ++ message ++ "\x27"
      action_taken := some "suggest_create_task"
      suggested_action := some "create_task_form" }
  else if containsAny m ["show", "list", "see", "my", "tasks", "todos"] then
    { response := "I can help you view your tasks. Your tasks are displayed in the dashboard."
      action_taken := some "suggest_view_tasks"
      suggested_action := some "navigate_to_dashboard" }
  else if containsAny m ["complete", "done", "finish", "mark"] then
    { response := "I can help you mark a task as complete. You can click the checkbox next to any task in the dashboard to mark it as complete."
      action_taken := some "suggest_complete_task"
      suggested_action := some "click_task_checkbox" }
  else if containsAny m ["delete", "remove", "cancel"] then
    { response := "I can help you delete a task. You can remove tasks using the delete button in the dashboard."
      action_taken := some "suggest_delete_task"
      suggested_action := some "click_delete_button" }
  else if containsAny m ["hello", "hi", "hey", "help"] then
    { response := "Hello! I\x27m your TaskFlow assistant. I can help you manage your tasks. Try saying \x27add a task\x27, \x27show my tasks\x27, or \x27mark task as complete\x27."
      action_taken := some "provide_assistance"
      suggested_action := some "show_help_menu" }
  else
    { response := "I received your message: \x27" ++ message ++ "\x27. I\x27m here to help you manage your tasks. Try commands like \x27add a task\x27, \x27show my tasks\x27, or \x27mark task as complete\x27."
      action_taken := some "acknowledge_message"
      suggested_action := some "show_available_commands" }

/-- POST /api/chat (src/main.py:442-498): verifies the user exists (404
otherwise), closes the connection, then answers from the responder alone —
no persistence side effect. -/
def chat_endpoint (st : Store) (message user_id : String) :
    Except ApiError ChatResponse :=
  match lookupUser st user_id with
  | none => .error (.notFound "User not found")
  | some _ => .ok (chatRespond message)

/-! Concrete fixtures used by witnesses and counterexamples. -/

/-- A stored user. -/
def user1 : UserRec :=
  { id := "u1", name := "Alice", email := "a@x", created_at := 0 }

/-- A stored task owned by `user1`, with a non-null description. -/
def task1 : TaskRec :=
  { id := "t1", title := "A", description := some "d", completed := false
    user_id := "u1", priority := 1, created_at := 0, updated_at := 0 }

/-- A store holding exactly `user1` and `task1`. -/
def st1 : Store := { users := [user1], tasks := [task1] }

/-- The partial-update body of the spec example: only priority is sent. -/
def upPrio2 : TaskUpdate := { priority := some (some 2) }

/-- A body sending description explicitly as null. -/
def upNullDesc : TaskUpdate := { description := some none }

/-- The empty store. -/
def st0 : Store := { users := [], tasks := [] }

/-- An older task of `user1` (created first). -/
def taskOld : TaskRec :=
  { id := "t1", title := "old", description := none, completed := false
    user_id := "u1", priority := 1, created_at := 1, updated_at := 1 }

/-- A newer task of `user1` (created second, appended after `taskOld`). -/
def taskNew : TaskRec :=
  { id := "t2", title := "new", description := none, completed := false
    user_id := "u1", priority := 1, created_at := 2, updated_at := 2 }

/-- A store where `user1` owns two tasks inserted oldest first. -/
def st2 : Store := { users := [user1], tasks := [taskOld, taskNew] }

/-- A POST /api/u1/tasks body whose user_id field names a different,
nonexistent user. -/
def bodyTaskOtherUser : TaskCreate :=
  { title := "t", description := none, completed := false, priority := 1
    user_id := "u2" }

/-! Helper lemmas shared by the claim theorems. -/

/-- If `find?` locates `t` and `f` keeps the predicate true on matching
rows, then after rewriting every matching row the same search finds `f t`. -/
lemma find?_updateRows (l : List TaskRec) (tid uid : String)
    (f : TaskRec → TaskRec)
    (hf : ∀ x, taskMatches tid uid x = true → taskMatches tid uid (f x) = true)
    (t : TaskRec) (ht : l.find? (taskMatches tid uid) = some t) :
    (updateRows l tid uid f).find? (taskMatches tid uid) = some (f t) := by
  induction l with
  | nil => simp [List.find?] at ht
  | cons a l ih =>
    by_cases ha : taskMatches tid uid a = true
    · rw [List.find?_cons_of_pos _ ha] at ht
      have hat : a = t := by injection ht
      have hrw : updateRows (a :: l) tid uid f =
          f a :: updateRows l tid uid f := by
        simp [updateRows, ha]
      rw [hrw, List.find?_cons_of_pos _ (hf a ha), hat]
    · rw [List.find?_cons_of_neg _ ha] at ht
      have : updateRows (a :: l) tid uid f =
          a :: updateRows l tid uid f := by
        simp [updateRows, ha]
      rw [this, List.find?_cons_of_neg _ ha]
      exact ih ht

/-- Rows not matched by the WHERE clause survive an UPDATE unchanged. -/
lemma mem_updateRows_of_no_match (l : List TaskRec) (tid uid : String)
    (f : TaskRec → TaskRec) (x : TaskRec) (hx : x ∈ l)
    (hm : taskMatches tid uid x = false) : x ∈ updateRows l tid uid f := by
  unfold updateRows
  exact List.mem_map.mpr ⟨x, hx, by simp [hm]⟩

/-- update_task never touches the users table. -/
lemma update_task_users (st : Store) (uid tid : String) (u : TaskUpdate)
    (now : Nat) : (update_task st uid tid u now).1.users = st.users := by
  unfold update_task
  cases hl : lookupUser st uid with
  | none => rfl
  | some w =>
    cases ht : findTask st uid tid with
    | none => rfl
    | some t =>
      by_cases he : u.hasEffective = true <;> simp [he]

/-- When the user and the task both exist and at least one field survives
the None filter, the committed store holds the merged row. -/
lemma update_task_find (st : Store) (uid tid : String) (u : TaskUpdate)
    (now : Nat) (t : TaskRec)
    (hu : lookupUser st uid ≠ none) (ht : findTask st uid tid = some t)
    (heff : u.hasEffective = true) :
    findTask (update_task st uid tid u now).1 uid tid =
      some (applyTaskUpdate u now t) := by
  cases hl : lookupUser st uid with
  | none => exact absurd hl hu
  | some w =>
    have hred : (update_task st uid tid u now).1 =
        { st with tasks :=
            (updateRows st.tasks tid uid (applyTaskUpdate u now)) } := by
      unfold update_task
      rw [hl, ht]
      simp [heff]
    rw [hred]
    exact find?_updateRows st.tasks tid uid (applyTaskUpdate u now)
      (fun x hx => hx) t ht

/-- With no effective field the UPDATE is skipped and the store is
returned untouched. -/
lemma update_task_noop (st : Store) (uid tid : String) (u : TaskUpdate)
    (now : Nat) (heff : u.hasEffective = false) :
    (update_task st uid tid u now).1 = st := by
  unfold update_task
  cases hl : lookupUser st uid with
  | none => rfl
  | some w =>
    cases ht : findTask st uid tid with
    | none => rfl
    | some t => simp [heff]

/-- toggle_task_completion commits the flipped row. -/
lemma toggle_find (st : Store) (uid tid : String) (now : Nat) (t : TaskRec)
    (hu : lookupUser st uid ≠ none) (ht : findTask st uid tid = some t) :
    findTask (toggle_task_completion st uid tid now).1 uid tid =
      some { t with completed := !t.completed, updated_at := now } := by
  cases hl : lookupUser st uid with
  | none => exact absurd hl hu
  | some w =>
    have hred : (toggle_task_completion st uid tid now).1 =
        { st with tasks :=
            (updateRows st.tasks tid uid
              (fun x => { x with completed := !t.completed,
                                 updated_at := now })) } := by
      unfold toggle_task_completion
      rw [hl, ht]
    rw [hred]
    exact find?_updateRows st.tasks tid uid
      (fun x => { x with completed := !t.completed, updated_at := now })
      (fun x hx => hx) t ht

/-- toggle_task_completion never touches the users table. -/
lemma toggle_users (st : Store) (uid tid : String) (now : Nat) :
    (toggle_task_completion st uid tid now).1.users = st.users := by
  unfold toggle_task_completion
  cases hl : lookupUser st uid with
  | none => rfl
  | some w =>
    cases ht : findTask st uid tid with
    | none => rfl
    | some t => rfl

/-- lookupUser only reads the users table. -/
lemma lookupUser_congr (st st' : Store) (uid : String)
    (h : st'.users = st.users) : lookupUser st' uid = lookupUser st uid := by
  unfold lookupUser
  rw [h]

/-! Claim theorems. -/

/-- C1 (amended): for an existing task/user pair, update_task overwrites
exactly the fields present with a non-null value (here: at least one such
field), leaves the fields that are absent — or present but null — at their
previous value, keeps id, user_id and created_at, stamps updated_at, and
leaves every non-matching row in the store. -/
theorem update_task_merges_present_fields (st : Store) (uid tid : String)
    (u : TaskUpdate) (now : Nat) (t : TaskRec)
    (hu : lookupUser st uid ≠ none) (ht : findTask st uid tid = some t)
    (heff : u.hasEffective = true) :
    ∃ t', findTask (update_task st uid tid u now).1 uid tid = some t' ∧
      t'.title = applyOpt u.title t.title ∧
      t'.description = applyDesc u.description t.description ∧
      t'.completed = applyOpt u.completed t.completed ∧
      t'.priority = applyOpt u.priority t.priority ∧
      t'.id = t.id ∧ t'.user_id = t.user_id ∧
      t'.created_at = t.created_at ∧ t'.updated_at = now ∧
      ∀ x ∈ st.tasks, taskMatches tid uid x = false →
        x ∈ (update_task st uid tid u now).1.tasks := by
  refine ⟨applyTaskUpdate u now t,
    update_task_find st uid tid u now t hu ht heff,
    rfl, rfl, rfl, rfl, rfl, rfl, rfl, rfl, ?_⟩
  intro x hx hm
  cases hl : lookupUser st uid with
  | none => exact absurd hl hu
  | some w =>
    have hred : (update_task st uid tid u now).1 =
        { st with tasks :=
            (updateRows st.tasks tid uid (applyTaskUpdate u now)) } := by
      unfold update_task
      rw [hl, ht]
      simp [heff]
    rw [hred]
    exact mem_updateRows_of_no_match st.tasks tid uid _ x hx hm

/-- C1 witness: updating the stored task whose title is "A" and priority 1
with a body carrying only priority 2 commits a row with title "A" and
priority 2, stamped at time 5. -/
theorem update_task_merges_present_fields_witness :
    ∃ t', findTask (update_task st1 "u1" "t1" upPrio2 5).1 "u1" "t1" =
        some t' ∧
      t'.title = "A" ∧ t'.priority = 2 ∧ t'.description = some "d" ∧
      t'.updated_at = 5 := by
  obtain ⟨t', hfind, hti, hde, _, hpr, _, _, _, hup, _⟩ :=
    update_task_merges_present_fields st1 "u1" "t1" upPrio2 5 task1
      (by decide) (by decide) (by decide)
  exact ⟨t', hfind, hti, hpr, hde, hup⟩

/-- C1 counterexample: the body sets description — a present field — to
explicit null, yet update_task leaves the whole store, including that
task's description `some "d"`, unchanged; so it is not the case that every
field present in the request is changed. -/
theorem update_task_null_field_not_applied :
    upNullDesc.description = some none ∧ task1.description = some "d" ∧
    lookupUser st1 "u1" ≠ none ∧ findTask st1 "u1" "t1" = some task1 ∧
    (update_task st1 "u1" "t1" upNullDesc 5).1 = st1 := by decide

/-- C2 (amended): update_task fails NotFound when the user or the
task/user pair is missing; it leaves the store — updated_at included —
untouched when no field survives the None filter (e.g. an empty body);
and when at least one field survives, it stamps updated_at with the
current time, strictly after the previous value whenever time advanced,
with created_at unchanged. -/
theorem update_task_updated_at_discipline (st : Store) (uid tid : String)
    (u : TaskUpdate) (now : Nat) :
    (lookupUser st uid = none →
      update_task st uid tid u now =
        (st, .error (.notFound "User not found"))) ∧
    (lookupUser st uid ≠ none → findTask st uid tid = none →
      update_task st uid tid u now =
        (st, .error (.notFound "Task not found"))) ∧
    (u.hasEffective = false → (update_task st uid tid u now).1 = st) ∧
    (∀ t, lookupUser st uid ≠ none → findTask st uid tid = some t →
      u.hasEffective = true → t.updated_at < now →
      ∃ t', findTask (update_task st uid tid u now).1 uid tid = some t' ∧
        t'.updated_at = now ∧ t.updated_at < t'.updated_at ∧
        t'.created_at = t.created_at) := by
  refine ⟨?_, ?_, update_task_noop st uid tid u now, ?_⟩
  · intro hl
    unfold update_task
    rw [hl]
  · intro hu hn
    cases hl : lookupUser st uid with
    | none => exact absurd hl hu
    | some w =>
      unfold update_task
      rw [hl, hn]
  · intro t hu ht heff hlt
    exact ⟨applyTaskUpdate u now t,
      update_task_find st uid tid u now t hu ht heff, rfl, hlt, rfl⟩

/-- C2 witness: at the concrete store, updating with the priority-only
body at time 5 commits updated_at = 5, strictly above the previous 0,
with created_at unchanged. -/
theorem update_task_updated_at_discipline_witness :
    ∃ t', findTask (update_task st1 "u1" "t1" upPrio2 5).1 "u1" "t1" =
        some t' ∧
      t'.updated_at = 5 ∧ task1.updated_at < t'.updated_at ∧
      t'.created_at = task1.created_at :=
  (update_task_updated_at_discipline st1 "u1" "t1" upPrio2 5).2.2.2 task1
    (by decide) (by decide) (by decide) (by decide)

/-- C2 counterexample: the addressed task/user pair exists and time has
advanced to 5, yet updating with a body carrying no fields leaves the
store — hence updated_at, still 0 — completely unchanged; updated_at is
not refreshed by every request body. -/
theorem update_task_empty_body_no_refresh :
    lookupUser st1 "u1" ≠ none ∧ findTask st1 "u1" "t1" = some task1 ∧
    task1.updated_at = 0 ∧ task1.updated_at < 5 ∧
    (update_task st1 "u1" "t1" ({} : TaskUpdate) 5).1 = st1 := by decide

/-- C3 (amended): a field sent with an explicit null is dropped by the
`if value is not None` filter and treated exactly like an absent field:
sending description = null leaves the stored description unchanged
(rather than setting it to null). -/
theorem update_task_null_description_ignored (st : Store)
    (uid tid : String) (u : TaskUpdate) (now : Nat) (t : TaskRec)
    (hu : lookupUser st uid ≠ none) (ht : findTask st uid tid = some t)
    (hd : u.description = some none) :
    ∃ t', findTask (update_task st uid tid u now).1 uid tid = some t' ∧
      t'.description = t.description := by
  by_cases heff : u.hasEffective = true
  · refine ⟨applyTaskUpdate u now t,
      update_task_find st uid tid u now t hu ht heff, ?_⟩
    show applyDesc u.description t.description = t.description
    rw [hd]
    rfl
  · rw [update_task_noop st uid tid u now (by simpa using heff)]
    exact ⟨t, ht, rfl⟩

/-- C3 witness: sending description = null against the stored task leaves
its description at `some "d"`. -/
theorem update_task_null_description_ignored_witness :
    ∃ t', findTask (update_task st1 "u1" "t1" upNullDesc 5).1 "u1" "t1" =
        some t' ∧ t'.description = task1.description :=
  update_task_null_description_ignored st1 "u1" "t1" upNullDesc 5 task1
    (by decide) (by decide) (by decide)

/-- C3 counterexample: the schema allows a null description and the body
carries description = null, but the committed task still has description
`some "d"`, not null — the explicit null was treated as absent. -/
theorem update_task_null_description_not_set :
    upNullDesc.description = some none ∧
    findTask (update_task st1 "u1" "t1" upNullDesc 5).1 "u1" "t1" =
      some task1 ∧
    task1.description = some "d" := by decide

/-- C4: whenever the addressed task/user pair exists, update_task and
toggle_task_completion commit the mutation, close the connection, and then
run a SELECT through the closed connection's cursor; both handlers
therefore end in sqlite3.ProgrammingError — the branch returning the
updated Task is unreachable. -/
theorem mutation_handlers_raise_on_closed_connection (st : Store)
    (uid tid : String) (u : TaskUpdate) (now : Nat)
    (hu : lookupUser st uid ≠ none) (ht : findTask st uid tid ≠ none) :
    (update_task st uid tid u now).2 = .error .programmingError ∧
    (toggle_task_completion st uid tid now).2 =
      .error .programmingError ∧
    (∀ r, (update_task st uid tid u now).2 ≠ .ok r) ∧
    (∀ r, (toggle_task_completion st uid tid now).2 ≠ .ok r) := by
  cases hl : lookupUser st uid with
  | none => exact absurd hl hu
  | some w =>
    cases hf : findTask st uid tid with
    | none => exact absurd hf ht
    | some t =>
      have h1 : (update_task st uid tid u now).2 =
          .error .programmingError := by
        unfold update_task
        rw [hl, hf]
      have h2 : (toggle_task_completion st uid tid now).2 =
          .error .programmingError := by
        unfold toggle_task_completion
        rw [hl, hf]
      refine ⟨h1, h2, ?_, ?_⟩
      · intro r hr
        rw [h1] at hr
        exact Except.noConfusion hr
      · intro r hr
        rw [h2] at hr
        exact Except.noConfusion hr

/-- C4 witness: at the concrete store, both mutating handlers end in the
closed-connection error. -/
theorem mutation_handlers_raise_on_closed_connection_witness :
    (update_task st1 "u1" "t1" upPrio2 5).2 =
      .error .programmingError ∧
    (toggle_task_completion st1 "u1" "t1" 5).2 =
      .error .programmingError ∧
    (∀ r, (update_task st1 "u1" "t1" upPrio2 5).2 ≠ .ok r) ∧
    (∀ r, (toggle_task_completion st1 "u1" "t1" 5).2 ≠ .ok r) :=
  mutation_handlers_raise_on_closed_connection st1 "u1" "t1" upPrio2 5
    (by decide) (by decide)

/-- C5: creating a task for a nonexistent user fails NotFound before any
INSERT, returning the store exactly as it was. -/
theorem create_task_missing_user (st : Store) (uid : String)
    (task : TaskCreate) (new_id : String) (now : Nat)
    (hu : lookupUser st uid = none) :
    create_task st uid task new_id now =
      (st, .error (.notFound "User not found")) := by
  unfold create_task
  rw [hu]

/-- C5 witness: creating a task in the empty store (no users) fails
NotFound and leaves the store empty. -/
theorem create_task_missing_user_witness :
    create_task st0 "u1" bodyTaskOtherUser "t9" 7 =
      (st0, .error (.notFound "User not found")) :=
  create_task_missing_user st0 "u1" bodyTaskOtherUser "t9" 7 (by decide)

/-- C6: the code violates the claimed invariant.  create_task verifies the
path user "u1" exists but INSERTs the body's user_id "u2"
(src/main.py:253 uses task.user_id, not the verified path parameter), so
the call commits a task row whose user_id matches no stored user — an
orphaned task. -/
theorem create_task_persists_unverified_body_user :
    lookupUser st1 "u1" ≠ none ∧ lookupUser st1 "u2" = none ∧
    (∃ t, t ∈ (create_task st1 "u1" bodyTaskOtherUser "t9" 7).1.tasks ∧
      t.user_id = "u2" ∧
      ∀ u ∈ (create_task st1 "u1" bodyTaskOtherUser "t9" 7).1.users,
        u.id ≠ t.user_id) := by decide

/-- C7: when some stored user already has the requested email, the INSERT
hits the UNIQUE constraint, the handler fails with the Conflict error, and
the store is returned exactly as it was — every user record, including the
original owner of the email, unchanged, and nothing added. -/
theorem create_user_duplicate_email (st : Store) (name email : String)
    (new_id : String) (now : Nat)
    (h : ∃ u ∈ st.users, u.email = email) :
    create_user st name email new_id now =
      (st, .error (.conflict "Email already registered")) := by
  obtain ⟨u0, hm, he⟩ := h
  have hany : st.users.any (fun v => v.email == email) = true :=
    List.any_eq_true.mpr ⟨u0, hm, by simp [he]⟩
  unfold create_user
  rw [hany]
  rfl

/-- C7 witness: re-registering the email of the stored user fails Conflict
and leaves the store unchanged. -/
theorem create_user_duplicate_email_witness :
    create_user st1 "Bob" "a@x" "u9" 3 =
      (st1, .error (.conflict "Email already registered")) :=
  create_user_duplicate_email st1 "Bob" "a@x" "u9" 3
    ⟨user1, by decide, by decide⟩

/-- C8: toggling an existing task commits the negated completed flag with
a fresh updated_at, and toggling again restores the original completed
value; both commits strictly advance updated_at whenever the supplied
clock does, and created_at is never touched. -/
theorem toggle_twice_restores_completed (st : Store) (uid tid : String)
    (now1 now2 : Nat) (t : TaskRec)
    (hu : lookupUser st uid ≠ none) (ht : findTask st uid tid = some t)
    (h1 : t.updated_at < now1) (h12 : now1 < now2) :
    ∃ t1 t2,
      findTask (toggle_task_completion st uid tid now1).1 uid tid =
        some t1 ∧
      t1.completed = !t.completed ∧ t1.updated_at = now1 ∧
      t1.created_at = t.created_at ∧ t.updated_at < t1.updated_at ∧
      findTask (toggle_task_completion
          (toggle_task_completion st uid tid now1).1 uid tid now2).1
          uid tid = some t2 ∧
      t2.completed = t.completed ∧ t2.updated_at = now2 ∧
      t2.created_at = t.created_at ∧ t1.updated_at < t2.updated_at := by
  have hf1 := toggle_find st uid tid now1 t hu ht
  have hu1 : lookupUser (toggle_task_completion st uid tid now1).1 uid ≠
      none := by
    rw [lookupUser_congr st _ uid (toggle_users st uid tid now1)]
    exact hu
  have hf2 := toggle_find (toggle_task_completion st uid tid now1).1 uid
    tid now2 { t with completed := !t.completed, updated_at := now1 }
    hu1 hf1
  refine ⟨{ t with completed := !t.completed, updated_at := now1 },
    { t with completed := !(!t.completed), updated_at := now2 },
    hf1, rfl, rfl, rfl, h1, hf2, ?_, rfl, rfl, h12⟩
  exact Bool.not_not t.completed

/-- C8 witness: toggling the stored (incomplete) task at times 3 and 5
passes through completed = true and back to false, with updated_at 3 then
5. -/
theorem toggle_twice_restores_completed_witness :
    ∃ t1 t2,
      findTask (toggle_task_completion st1 "u1" "t1" 3).1 "u1" "t1" =
        some t1 ∧
      t1.completed = !task1.completed ∧ t1.updated_at = 3 ∧
      t1.created_at = task1.created_at ∧ task1.updated_at < t1.updated_at ∧
      findTask (toggle_task_completion
          (toggle_task_completion st1 "u1" "t1" 3).1 "u1" "t1" 5).1
          "u1" "t1" = some t2 ∧
      t2.completed = task1.completed ∧ t2.updated_at = 5 ∧
      t2.created_at = task1.created_at ∧ t1.updated_at < t2.updated_at :=
  toggle_twice_restores_completed st1 "u1" "t1" 3 5 task1
    (by decide) (by decide) (by decide) (by decide)

/-- C9 (amended): for an existing user, get_tasks returns exactly the
tasks owned by that user, in the stored (rowid / insertion) order — the
query has no ORDER BY, so no newest-first sort is applied — and an empty
list, not an error, when the user owns no tasks. -/
theorem get_tasks_returns_owned_in_insertion_order (st : Store)
    (uid : String) (hu : lookupUser st uid ≠ none) :
    ∃ l, get_tasks st uid = .ok l ∧
      List.Sublist l st.tasks ∧
      (∀ t, t ∈ l ↔ t ∈ st.tasks ∧ t.user_id = uid) ∧
      ((∀ t ∈ st.tasks, t.user_id ≠ uid) → l = []) := by
  cases hl : lookupUser st uid with
  | none => exact absurd hl hu
  | some w =>
    refine ⟨st.tasks.filter (fun t => t.user_id == uid), ?_, ?_, ?_, ?_⟩
    · unfold get_tasks
      rw [hl]
    · exact List.filter_sublist st.tasks
    · intro t
      rw [List.mem_filter]
      simp
    · intro hnone
      rw [List.eq_nil_iff_forall_not_mem]
      intro t htl
      rw [List.mem_filter] at htl
      exact hnone t htl.1 (by simpa using htl.2)

/-- C9 witness: at the concrete store, get_tasks lists both of the user's
tasks (and would return [] had the user owned none). -/
theorem get_tasks_returns_owned_in_insertion_order_witness :
    ∃ l, get_tasks st2 "u1" = .ok l ∧
      List.Sublist l st2.tasks ∧
      (∀ t, t ∈ l ↔ t ∈ st2.tasks ∧ t.user_id = "u1") ∧
      ((∀ t ∈ st2.tasks, t.user_id ≠ "u1") → l = []) :=
  get_tasks_returns_owned_in_insertion_order st2 "u1" (by decide)

/-- C9 counterexample: with two stored tasks created at times 1 and 2,
get_tasks returns the older task first — ascending creation time, not the
claimed newest-created-first order. -/
theorem get_tasks_not_newest_first :
    get_tasks st2 "u1" = .ok [taskOld, taskNew] ∧
    taskOld.created_at < taskNew.created_at := by decide

/-- C10: for an existing user, the chat endpoint classifies "please add a
task" as the create suggestion, "show my list" as the view suggestion,
"hi there" as the greeting, and the unmatched "xyz123" as the fallback
acknowledgement whose response text contains the original message. -/
theorem chat_keyword_categories (st : Store) (uid : String)
    (hu : lookupUser st uid ≠ none) :
    (∃ r, chat_endpoint st "please add a task" uid = .ok r ∧
      r.action_taken = some "suggest_create_task") ∧
    (∃ r, chat_endpoint st "show my list" uid = .ok r ∧
      r.action_taken = some "suggest_view_tasks") ∧
    (∃ r, chat_endpoint st "hi there" uid = .ok r ∧
      r.action_taken = some "provide_assistance") ∧
    (∃ r, chat_endpoint st "xyz123" uid = .ok r ∧
      r.action_taken = some "acknowledge_message" ∧
      strContains r.response "xyz123" = true) := by
  cases hl : lookupUser st uid with
  | none => exact absurd hl hu
  | some w =>
    have hok : ∀ m : String, chat_endpoint st m uid = .ok (chatRespond m) := by
      intro m
      unfold chat_endpoint
      rw [hl]
    refine ⟨⟨chatRespond "please add a task", hok _, by decide⟩,
      ⟨chatRespond "show my list", hok _, by decide⟩,
      ⟨chatRespond "hi there", hok _, by decide⟩,
      ⟨chatRespond "xyz123", hok _, by decide, by decide⟩⟩

/-- C10 witness: the four classifications at the concrete store. -/
theorem chat_keyword_categories_witness :
    (∃ r, chat_endpoint st1 "please add a task" "u1" = .ok r ∧
      r.action_taken = some "suggest_create_task") ∧
    (∃ r, chat_endpoint st1 "show my list" "u1" = .ok r ∧
      r.action_taken = some "suggest_view_tasks") ∧
    (∃ r, chat_endpoint st1 "hi there" "u1" = .ok r ∧
      r.action_taken = some "provide_assistance") ∧
    (∃ r, chat_endpoint st1 "xyz123" "u1" = .ok r ∧
      r.action_taken = some "acknowledge_message" ∧
      strContains r.response "xyz123" = true) :=
  chat_keyword_categories st1 "u1" (by decide)

end TaskFlow
